import Mathlib

/-!
Verification of the query-plan construction logic of `monitoramento.py`.

The repository exposes one analytics endpoint (`get_stats`) that builds a
KQL query from a small set of request flags via `run_analytics_query`.
We embed the pure query-construction portion of `run_analytics_query`
(everything up to and including the `kql_query` string; the network call to
Log Analytics is out of scope) as a function from the request parameters to
either an `HTTPError` (modelling the raised `HTTPException`) or a
`QueryPlan` holding the intermediate lists the Python code builds
(`extend_expressions`, `where_conditions`, `group_by_columns`, the one or
two `summarize` stages, and the `order by` clause).  A separate renderer
`renderPlan` serializes a plan to the exact text of the Python f-strings,
byte for byte, trailing spaces included.
-/

namespace Monitoramento

/-- The `coluna_alvo` query parameter: `Literal["tokens_entrada", "tokens_saida", "job_id"]`
(line 192 of `monitoramento.py`). -/
inductive ColunaAlvo
  | tokens_entrada
  | tokens_saida
  | job_id
deriving DecidableEq, Repr

/-- The `op` query parameter: `Literal["avg", "sum", "count", "min", "max", "dcount"]`
(line 197 of `monitoramento.py`). -/
inductive Op
  | avg
  | sum
  | count
  | min
  | max
  | dcount
deriving DecidableEq, Repr

/-- The string value of a `coluna_alvo` literal. -/
def ColunaAlvo.toStr : ColunaAlvo → String
  | .tokens_entrada => "tokens_entrada"
  | .tokens_saida => "tokens_saida"
  | .job_id => "job_id"

/-- The string value of an `op` literal. -/
def Op.toStr : Op → String
  | .avg => "avg"
  | .sum => "sum"
  | .count => "count"
  | .min => "min"
  | .max => "max"
  | .dcount => "dcount"

/-- Python `str.capitalize()`: first character upper-cased, the rest lower-cased
(used at line 229: `f"{op.capitalize()}_{coluna_alvo}"`). -/
def pyCapitalize (s : String) : String :=
  match s.data with
  | [] => ""
  | c :: cs => String.mk (c.toUpper :: cs.map Char.toLower)

/-- Model of `fastapi.HTTPException(status_code=..., detail=...)`. -/
structure HTTPError where
  status_code : Nat
  detail : String
deriving DecidableEq, Repr

/-- One `summarize` step of the KQL query:
`outputColumn = aggFunction(inputColumn) by groupBy`. -/
structure AggStage where
  outputColumn : String
  aggFunction : String
  inputColumn : String
  groupBy : List String
deriving DecidableEq, Repr

/-- The pieces `run_analytics_query` assembles before interpolating them into
the `kql_query` f-string.  `groupByColumns` is the final `group_by_columns`
list (the group keys of the output stage); `stages` has one element in the
`not analisar_por_job` branch and two in the per-job branch;
`orderByClause` is the `order_by_clause` string; `outputColumnName` and
`operationUsed` are the final values of `nome_coluna` and `operacao` after
the `job_id` overrides. -/
structure QueryPlan where
  extendExpressions : List String
  whereConditions : List String
  groupByColumns : List String
  stages : List AggStage
  orderByClause : String
  outputColumnName : String
  operationUsed : String
deriving DecidableEq, Repr

/-- Lines 110–164 of `monitoramento.py`: the final clauses and the
single-stage / two-stage branch, given the accumulated lists and the
current values of the local variables.  Mirrors the source exactly:
`order_by_clause = f"projeto asc, {daily_order_by_kql}{nome_coluna} desc"`,
then either the standard single `summarize` or (after the `sum` validation)
the two-stage per-job query that also appends the `job_id` extend/where
entries and extends the stage-1 group-by with `job_id`. -/
def buildStages (coluna_alvo operacao nome_coluna : String)
    (analisar_por_job : Bool)
    (group_by_columns extend_expressions where_conditions : List String)
    (daily_order_by_kql : String) : Except HTTPError QueryPlan :=
  let order_by_clause := "projeto asc, " ++ daily_order_by_kql ++ nome_coluna ++ " desc"
  if !analisar_por_job then
    Except.ok
      { extendExpressions := extend_expressions
        whereConditions := where_conditions
        groupByColumns := group_by_columns
        stages := [⟨nome_coluna, operacao, coluna_alvo, group_by_columns⟩]
        orderByClause := order_by_clause
        outputColumnName := nome_coluna
        operationUsed := operacao }
  else if operacao == "sum" then
    Except.error ⟨400, "A operação \x27sum\x27 não é permitida com \x27analisar_por_job=True\x27."⟩
  else
    let extend_expressions := extend_expressions ++ ["job_id = tostring(msg_data.job_id)"]
    let where_conditions := where_conditions ++ ["isnotnull(msg_data.job_id)"]
    let stage_1_groupby_columns := group_by_columns ++ ["job_id"]
    Except.ok
      { extendExpressions := extend_expressions
        whereConditions := where_conditions
        groupByColumns := group_by_columns
        stages := [⟨"job_token_total", "sum", coluna_alvo, stage_1_groupby_columns⟩,
                   ⟨nome_coluna, operacao, "job_token_total", group_by_columns⟩]
        orderByClause := order_by_clause
        outputColumnName := nome_coluna
        operationUsed := operacao }

/-- Lines 44–164 of `monitoramento.py` (`run_analytics_query`), restricted to
the pure query-construction part.  `dias` is accepted, as in the source,
but only feeds the query timespan (line 173), never the query text, so the
result does not depend on it.  Python's in-place list mutation and local
variable reassignment are modelled by shadowing `let` bindings in source
order. -/
def run_analytics_query (dias : Int) (coluna_alvo operacao nome_coluna : String)
    (agrupar_por_modelo analisar_por_job resultado_diario : Bool) :
    Except HTTPError QueryPlan :=
  -- 1.–3. base lists: 'projeto' is mandatory everywhere
  let group_by_columns : List String := ["projeto"]
  let extend_expressions : List String := ["projeto = tostring(msg_data.projeto)"]
  let where_conditions : List String := ["isnotnull(msg_data.projeto)"]
  -- 'usuario_executor' goes to extend and group_by but NOT to where
  let group_by_columns := group_by_columns ++ ["usuario_executor"]
  let extend_expressions := extend_expressions ++ ["usuario_executor = tostring(msg_data.usuario_executor)"]
  -- 4. model_name
  let group_by_columns :=
    if agrupar_por_modelo then group_by_columns ++ ["model_name"] else group_by_columns
  let extend_expressions :=
    if agrupar_por_modelo then extend_expressions ++ ["model_name = tostring(msg_data.model_name)"]
    else extend_expressions
  let where_conditions :=
    if agrupar_por_modelo then where_conditions ++ ["isnotnull(msg_data.model_name)"]
    else where_conditions
  -- 5. resultado_diario
  let daily_bin_column := "dia"
  let group_by_columns :=
    if resultado_diario then group_by_columns ++ [daily_bin_column] else group_by_columns
  let extend_expressions :=
    if resultado_diario then
      extend_expressions ++ [daily_bin_column ++ " = bin(todatetime(msg_data.data_hora), 1d)"]
    else extend_expressions
  let where_conditions :=
    if resultado_diario then where_conditions ++ ["isnotnull(msg_data.data_hora)"]
    else where_conditions
  let daily_order_by_kql := if resultado_diario then daily_bin_column ++ " asc, " else ""
  -- 6. coluna_alvo (the metric)
  if coluna_alvo == "job_id" then
    if operacao != "count" && operacao != "dcount" then
      Except.error ⟨400, "A operação para \x27coluna_alvo=job_id\x27 deve ser \x27count\x27 ou \x27dcount\x27."⟩
    else
      let operacao := "dcount"
      let nome_coluna := "Contagem_Jobs_Unicos"
      let extend_expressions :=
        extend_expressions ++ [coluna_alvo ++ " = tostring(msg_data." ++ coluna_alvo ++ ")"]
      let where_conditions :=
        where_conditions ++ ["isnotnull(msg_data." ++ coluna_alvo ++ ")"]
      let analisar_por_job := false
      buildStages coluna_alvo operacao nome_coluna analisar_por_job
        group_by_columns extend_expressions where_conditions daily_order_by_kql
  else
    let extend_expressions :=
      extend_expressions ++ [coluna_alvo ++ " = todouble(msg_data." ++ coluna_alvo ++ ")"]
    let where_conditions :=
      where_conditions ++ ["isnotnull(msg_data." ++ coluna_alvo ++ ")"]
    buildStages coluna_alvo operacao nome_coluna analisar_por_job
      group_by_columns extend_expressions where_conditions daily_order_by_kql

/-- The request reaching the endpoint, after FastAPI's parameter typing
(lines 189–216 of `monitoramento.py`): `dias > 0` is enforced by the HTTP
layer, `coluna_alvo` and `op` are the literal enums, the three flags are
booleans. -/
structure QueryRequest where
  dias : Int
  coluna_alvo : ColunaAlvo
  op : Op
  agrupar_por_modelo : Bool
  analisar_por_job : Bool
  resultado_diario : Bool

/-- Lines 224–234 of `monitoramento.py` (`get_stats`): compute
`coluna_saida` ("Contagem_Jobs_Unicos" for `job_id`, else
`f"{op.capitalize()}_{coluna_alvo}"`) and call `run_analytics_query`. -/
def get_stats (r : QueryRequest) : Except HTTPError QueryPlan :=
  let coluna_saida :=
    if r.coluna_alvo = ColunaAlvo.job_id then "Contagem_Jobs_Unicos"
    else pyCapitalize r.op.toStr ++ "_" ++ r.coluna_alvo.toStr
  run_analytics_query r.dias r.coluna_alvo.toStr r.op.toStr coluna_saida
    r.agrupar_por_modelo r.analisar_por_job r.resultado_diario

/-- The Plan Renderer: serializes a `QueryPlan` to the exact text of the
`kql_query` f-strings (lines 121–131 for a single stage, lines 148–164 for
two stages), whitespace and trailing spaces reproduced byte for byte.
A plan whose stage list is neither one nor two stages long renders to the
initial `kql_query = ""`; `run_analytics_query` never produces one. -/
def renderPlan (p : QueryPlan) : String :=
  let extend_clause := String.intercalate ",\n            " p.extendExpressions
  let where_clause := String.intercalate " and " p.whereConditions
  let header :=
    "\n        AppTraces \n        | extend msg_data = parse_json(Message)\n        | extend\n            "
      ++ extend_clause ++ "\n        | where " ++ where_clause
  match p.stages with
  | [s] =>
      header ++ "\n        | summarize\n            "
        ++ s.outputColumn ++ " = " ++ s.aggFunction ++ "(" ++ s.inputColumn ++ ")"
        ++ "\n            by " ++ String.intercalate ", " s.groupBy
        ++ "\n        | order by " ++ p.orderByClause ++ "\n        "
  | [s1, s2] =>
      header ++ "\n        \n        | summarize \n            "
        ++ s1.outputColumn ++ " = " ++ s1.aggFunction ++ "(" ++ s1.inputColumn ++ ") "
        ++ "\n            by " ++ String.intercalate ", " s1.groupBy
        ++ "\n            \n        | summarize\n            "
        ++ s2.outputColumn ++ " = " ++ s2.aggFunction ++ "(" ++ s2.inputColumn ++ ")"
        ++ "\n            by " ++ String.intercalate ", " s2.groupBy
        ++ "\n            \n        | order by " ++ p.orderByClause ++ "\n        "
  | _ => ""

/-- The whole in-scope pipeline: build the plan from the request and render
it, as the endpoint does before handing the text to the log-store client. -/
def buildAndRender (r : QueryRequest) : Except HTTPError String :=
  Except.map renderPlan (get_stats r)

/-- Does the pattern `pat` occur as a contiguous run of `s`?  Used to state
that a column name appears nowhere in a clause list. -/
def listHasSub (pat : List Char) : List Char → Bool
  | [] => pat.isEmpty
  | c :: t => pat.isPrefixOf (c :: t) || listHasSub pat t

/-- `strContains s pat = true` iff `pat` occurs as a substring of `s`. -/
def strContains (s pat : String) : Bool :=
  listHasSub pat.data s.data

/-- The plan held by a successful builder result (an inert default plan for
the error case, used only to name a concrete plan in witness statements). -/
def planOf (e : Except HTTPError QueryPlan) : QueryPlan :=
  match e with
  | .ok p => p
  | .error _ => ⟨[], [], [], [], "", "", ""⟩

/-- Concrete request used to witness claim C1: metric `job_id`, operation
`count`, with `analisar_por_job` deliberately `true` to exhibit the silent
override. -/
def reqC1 : QueryRequest := ⟨30, ColunaAlvo.job_id, Op.count, false, true, false⟩

/-- Concrete request used to witness claim C2. -/
def reqC2 : QueryRequest := ⟨7, ColunaAlvo.tokens_saida, Op.avg, true, true, false⟩

/-- Concrete request used to witness claim C3. -/
def reqC3 : QueryRequest := ⟨30, ColunaAlvo.tokens_entrada, Op.sum, false, true, false⟩

/-- Concrete request used to witness claim C4. -/
def reqC4 : QueryRequest := ⟨30, ColunaAlvo.job_id, Op.avg, false, false, false⟩

/-- Concrete request used to witness claim C5 (all flags on). -/
def reqC5 : QueryRequest := ⟨30, ColunaAlvo.tokens_entrada, Op.avg, true, true, true⟩

/-- The plan built for `reqC5`. -/
def planC5 : QueryPlan := planOf (get_stats reqC5)

/-- Concrete request used to witness claim C6 (`agrupar_por_modelo = true`). -/
def reqC6 : QueryRequest := ⟨30, ColunaAlvo.tokens_saida, Op.max, true, false, false⟩

/-- The plan built for `reqC6`. -/
def planC6 : QueryPlan := planOf (get_stats reqC6)

/-- Concrete request used to witness claim C7 (`resultado_diario = true`). -/
def reqC7 : QueryRequest := ⟨30, ColunaAlvo.tokens_entrada, Op.min, false, false, true⟩

/-- The plan built for `reqC7`. -/
def planC7 : QueryPlan := planOf (get_stats reqC7)

/-- Concrete request used to witness claim C8 (daily two-stage plan). -/
def reqC8 : QueryRequest := ⟨30, ColunaAlvo.tokens_entrada, Op.avg, false, true, true⟩

/-- The plan built for `reqC8`. -/
def planC8 : QueryPlan := planOf (get_stats reqC8)

/-- Concrete request used to witness claim C10 (two-stage plan). -/
def reqC10 : QueryRequest := ⟨14, ColunaAlvo.tokens_saida, Op.dcount, true, true, true⟩

/-- The plan built for `reqC10`. -/
def planC10 : QueryPlan := planOf (get_stats reqC10)

/-- The query text never depends on `dias`: the parameter only feeds the
query timespan in the excluded execution adapter. -/
theorem get_stats_dias_irrel (d : Int) (ca : ColunaAlvo) (op : Op) (m j dl : Bool) :
    get_stats ⟨d, ca, op, m, j, dl⟩ = get_stats ⟨0, ca, op, m, j, dl⟩ := rfl

/-- Claim C1: for every request with metric `job_id` and operation `count` or
`dcount`, the builder succeeds regardless of the caller's `analisar_por_job`
value, and the resulting plan has operation `dcount`, output column name the
fixed constant `"Contagem_Jobs_Unicos"`, and exactly one aggregation stage
(`analisar_por_job` is forced false silently, not as an error). -/
theorem C1_jobid_normalizes (r : QueryRequest)
    (hm : r.coluna_alvo = ColunaAlvo.job_id)
    (hop : r.op = Op.count ∨ r.op = Op.dcount) :
    ∃ p, get_stats r = Except.ok p ∧ p.operationUsed = "dcount" ∧
      p.outputColumnName = "Contagem_Jobs_Unicos" ∧ p.stages.length = 1 := by
  obtain ⟨d, ca, op, m, j, dl⟩ := r
  cases ca <;> cases op <;> cases m <;> cases j <;> cases dl <;>
    first
      | exact ColunaAlvo.noConfusion hm
      | (rcases hop with h | h <;> exact Op.noConfusion h)
      | exact ⟨_, rfl, rfl, rfl, rfl⟩

/-- Witness for C1 at `reqC1` (metric `job_id`, operation `count`,
`analisar_por_job = true`). -/
theorem C1_jobid_normalizes_witness :
    reqC1.coluna_alvo = ColunaAlvo.job_id ∧
    (reqC1.op = Op.count ∨ reqC1.op = Op.dcount) ∧
    (∃ p, get_stats reqC1 = Except.ok p ∧ p.operationUsed = "dcount" ∧
      p.outputColumnName = "Contagem_Jobs_Unicos" ∧ p.stages.length = 1) :=
  ⟨rfl, Or.inl rfl, C1_jobid_normalizes reqC1 rfl (Or.inl rfl)⟩

/-- Claim C2: for every request with `analisar_por_job = true`, metric other
than `job_id`, and operation other than `sum`, the plan has exactly two
aggregation stages: stage 1 computes `sum` of the metric column into the
synthetic intermediate column `job_token_total`, grouped by stage 2's group
keys plus `job_id`; stage 2 applies the requested operation to
`job_token_total`, grouped by the base group keys, into the output column. -/
theorem C2_two_stage_shape (r : QueryRequest)
    (hj : r.analisar_por_job = true)
    (hm : r.coluna_alvo ≠ ColunaAlvo.job_id)
    (hop : r.op ≠ Op.sum) :
    ∃ p s1 s2, get_stats r = Except.ok p ∧ p.stages = [s1, s2] ∧
      s1.aggFunction = "sum" ∧
      s1.inputColumn = r.coluna_alvo.toStr ∧
      s1.outputColumn = "job_token_total" ∧
      s1.groupBy = s2.groupBy ++ ["job_id"] ∧
      s2.aggFunction = r.op.toStr ∧
      s2.inputColumn = "job_token_total" ∧
      s2.groupBy = p.groupByColumns ∧
      s2.outputColumn = p.outputColumnName := by
  obtain ⟨d, ca, op, m, j, dl⟩ := r
  cases ca <;> cases op <;> cases m <;> cases j <;> cases dl <;>
    first
      | exact Bool.noConfusion hj
      | exact absurd rfl hm
      | exact absurd rfl hop
      | exact ⟨_, _, _, rfl, rfl, rfl, rfl, rfl, rfl, rfl, rfl, rfl, rfl⟩

/-- Witness for C2 at `reqC2` (`tokens_saida`, `avg`, grouped by model,
`analisar_por_job = true`). -/
theorem C2_two_stage_shape_witness :
    reqC2.analisar_por_job = true ∧
    reqC2.coluna_alvo ≠ ColunaAlvo.job_id ∧
    reqC2.op ≠ Op.sum ∧
    (∃ p s1 s2, get_stats reqC2 = Except.ok p ∧ p.stages = [s1, s2] ∧
      s1.aggFunction = "sum" ∧
      s1.inputColumn = reqC2.coluna_alvo.toStr ∧
      s1.outputColumn = "job_token_total" ∧
      s1.groupBy = s2.groupBy ++ ["job_id"] ∧
      s2.aggFunction = reqC2.op.toStr ∧
      s2.inputColumn = "job_token_total" ∧
      s2.groupBy = p.groupByColumns ∧
      s2.outputColumn = p.outputColumnName) :=
  ⟨rfl, by decide, by decide, C2_two_stage_shape reqC2 rfl (by decide) (by decide)⟩

/-- Claim C3: for every request with metric other than `job_id`,
`analisar_por_job = true`, and operation `sum`, the builder raises the
classified 400 validation error (sum is redundant with job-level
aggregation) and never returns a plan. -/
theorem C3_sum_with_job_rejected (r : QueryRequest)
    (hm : r.coluna_alvo ≠ ColunaAlvo.job_id)
    (hj : r.analisar_por_job = true)
    (hop : r.op = Op.sum) :
    get_stats r = Except.error
      ⟨400, "A operação \x27sum\x27 não é permitida com \x27analisar_por_job=True\x27."⟩ := by
  obtain ⟨d, ca, op, m, j, dl⟩ := r
  cases ca <;> cases op <;> cases m <;> cases j <;> cases dl <;>
    first
      | exact absurd rfl hm
      | exact Bool.noConfusion hj
      | exact Op.noConfusion hop
      | rfl

/-- Witness for C3 at `reqC3` (`tokens_entrada`, `sum`,
`analisar_por_job = true`). -/
theorem C3_sum_with_job_rejected_witness :
    reqC3.coluna_alvo ≠ ColunaAlvo.job_id ∧
    reqC3.analisar_por_job = true ∧
    reqC3.op = Op.sum ∧
    get_stats reqC3 = Except.error
      ⟨400, "A operação \x27sum\x27 não é permitida com \x27analisar_por_job=True\x27."⟩ :=
  ⟨by decide, rfl, rfl, C3_sum_with_job_rejected reqC3 (by decide) rfl rfl⟩

/-- Claim C4: for every request with metric `job_id` and operation outside
`{count, dcount}` (i.e. `avg`, `sum`, `min`, or `max`), the builder raises
the classified 400 validation error and never returns a plan. -/
theorem C4_jobid_bad_op_rejected (r : QueryRequest)
    (hm : r.coluna_alvo = ColunaAlvo.job_id)
    (hop : r.op = Op.avg ∨ r.op = Op.sum ∨ r.op = Op.min ∨ r.op = Op.max) :
    get_stats r = Except.error
      ⟨400, "A operação para \x27coluna_alvo=job_id\x27 deve ser \x27count\x27 ou \x27dcount\x27."⟩ := by
  obtain ⟨d, ca, op, m, j, dl⟩ := r
  cases ca <;> cases op <;> cases m <;> cases j <;> cases dl <;>
    first
      | exact ColunaAlvo.noConfusion hm
      | rfl
      | (rcases hop with h | h | h | h <;> exact Op.noConfusion h)

/-- Witness for C4 at `reqC4` (metric `job_id`, operation `avg`). -/
theorem C4_jobid_bad_op_rejected_witness :
    reqC4.coluna_alvo = ColunaAlvo.job_id ∧
    (reqC4.op = Op.avg ∨ reqC4.op = Op.sum ∨ reqC4.op = Op.min ∨ reqC4.op = Op.max) ∧
    get_stats reqC4 = Except.error
      ⟨400, "A operação para \x27coluna_alvo=job_id\x27 deve ser \x27count\x27 ou \x27dcount\x27."⟩ :=
  ⟨rfl, Or.inl rfl, C4_jobid_bad_op_rejected reqC4 rfl (Or.inl rfl)⟩

/-- Claim C5: in every plan the builder produces, the project column is
derived, is a group key, and carries a non-null filter (so the filter list
is never empty), and the executing-user column is derived and is a group
key but its name never occurs in any filter predicate. -/
theorem C5_base_columns (r : QueryRequest) (p : QueryPlan)
    (h : get_stats r = Except.ok p) :
    "projeto = tostring(msg_data.projeto)" ∈ p.extendExpressions ∧
    "projeto" ∈ p.groupByColumns ∧
    "isnotnull(msg_data.projeto)" ∈ p.whereConditions ∧
    p.whereConditions ≠ [] ∧
    "usuario_executor = tostring(msg_data.usuario_executor)" ∈ p.extendExpressions ∧
    "usuario_executor" ∈ p.groupByColumns ∧
    (∀ c ∈ p.whereConditions, strContains c "usuario_executor" = false) := by
  obtain ⟨d, ca, op, m, j, dl⟩ := r
  rw [get_stats_dias_irrel] at h
  cases ca <;> cases op <;> cases m <;> cases j <;> cases dl <;>
    first
      | exact Except.noConfusion h
      | (injection h with h; subst h; decide)

/-- Witness for C5 at `reqC5` and its plan `planC5`. -/
theorem C5_base_columns_witness :
    get_stats reqC5 = Except.ok planC5 ∧
    ("projeto = tostring(msg_data.projeto)" ∈ planC5.extendExpressions ∧
    "projeto" ∈ planC5.groupByColumns ∧
    "isnotnull(msg_data.projeto)" ∈ planC5.whereConditions ∧
    planC5.whereConditions ≠ [] ∧
    "usuario_executor = tostring(msg_data.usuario_executor)" ∈ planC5.extendExpressions ∧
    "usuario_executor" ∈ planC5.groupByColumns ∧
    (∀ c ∈ planC5.whereConditions, strContains c "usuario_executor" = false)) :=
  ⟨rfl, C5_base_columns reqC5 planC5 rfl⟩

/-- Claim C6: for every request that yields a plan, if `agrupar_por_modelo`
is true the model-name column is derived, is a group key, and has a
non-null filter; if false, the model-name column occurs nowhere in the
derivations, the group keys, or the filter predicates. -/
theorem C6_model_grouping (r : QueryRequest) (p : QueryPlan)
    (h : get_stats r = Except.ok p) :
    (r.agrupar_por_modelo = true →
      "model_name = tostring(msg_data.model_name)" ∈ p.extendExpressions ∧
      "model_name" ∈ p.groupByColumns ∧
      "isnotnull(msg_data.model_name)" ∈ p.whereConditions) ∧
    (r.agrupar_por_modelo = false →
      (∀ e ∈ p.extendExpressions, strContains e "model_name" = false) ∧
      "model_name" ∉ p.groupByColumns ∧
      (∀ c ∈ p.whereConditions, strContains c "model_name" = false)) := by
  obtain ⟨d, ca, op, m, j, dl⟩ := r
  rw [get_stats_dias_irrel] at h
  cases ca <;> cases op <;> cases m <;> cases j <;> cases dl <;>
    first
      | exact Except.noConfusion h
      | (injection h with h; subst h;
         refine ⟨fun hm => ?_, fun hm => ?_⟩ <;>
           first
             | exact Bool.noConfusion hm
             | decide)

/-- Witness for C6 at `reqC6` (`agrupar_por_modelo = true`) and its plan
`planC6`. -/
theorem C6_model_grouping_witness :
    get_stats reqC6 = Except.ok planC6 ∧
    ((reqC6.agrupar_por_modelo = true →
      "model_name = tostring(msg_data.model_name)" ∈ planC6.extendExpressions ∧
      "model_name" ∈ planC6.groupByColumns ∧
      "isnotnull(msg_data.model_name)" ∈ planC6.whereConditions) ∧
    (reqC6.agrupar_por_modelo = false →
      (∀ e ∈ planC6.extendExpressions, strContains e "model_name" = false) ∧
      "model_name" ∉ planC6.groupByColumns ∧
      (∀ c ∈ planC6.whereConditions, strContains c "model_name" = false))) :=
  ⟨rfl, C6_model_grouping reqC6 planC6 rfl⟩

/-- Claim C7: for every request with `resultado_diario = true` that yields a
plan, the day-bucket column `dia` is derived as the source timestamp field
`data_hora` truncated to a one-day boundary and added to the group keys,
and the non-null filter is on the source field `data_hora`, not on the
derived column `dia`; with `resultado_diario = false` none of these appear. -/
theorem C7_daily_bucketing (r : QueryRequest) (p : QueryPlan)
    (h : get_stats r = Except.ok p) :
    (r.resultado_diario = true →
      "dia = bin(todatetime(msg_data.data_hora), 1d)" ∈ p.extendExpressions ∧
      "dia" ∈ p.groupByColumns ∧
      "isnotnull(msg_data.data_hora)" ∈ p.whereConditions ∧
      "isnotnull(msg_data.dia)" ∉ p.whereConditions) ∧
    (r.resultado_diario = false →
      "dia = bin(todatetime(msg_data.data_hora), 1d)" ∉ p.extendExpressions ∧
      "dia" ∉ p.groupByColumns ∧
      "isnotnull(msg_data.data_hora)" ∉ p.whereConditions) := by
  obtain ⟨d, ca, op, m, j, dl⟩ := r
  rw [get_stats_dias_irrel] at h
  cases ca <;> cases op <;> cases m <;> cases j <;> cases dl <;>
    first
      | exact Except.noConfusion h
      | (injection h with h; subst h;
         refine ⟨fun hm => ?_, fun hm => ?_⟩ <;>
           first
             | exact Bool.noConfusion hm
             | decide)

/-- Witness for C7 at `reqC7` (`resultado_diario = true`) and its plan
`planC7`. -/
theorem C7_daily_bucketing_witness :
    get_stats reqC7 = Except.ok planC7 ∧
    ((reqC7.resultado_diario = true →
      "dia = bin(todatetime(msg_data.data_hora), 1d)" ∈ planC7.extendExpressions ∧
      "dia" ∈ planC7.groupByColumns ∧
      "isnotnull(msg_data.data_hora)" ∈ planC7.whereConditions ∧
      "isnotnull(msg_data.dia)" ∉ planC7.whereConditions) ∧
    (reqC7.resultado_diario = false →
      "dia = bin(todatetime(msg_data.data_hora), 1d)" ∉ planC7.extendExpressions ∧
      "dia" ∉ planC7.groupByColumns ∧
      "isnotnull(msg_data.data_hora)" ∉ planC7.whereConditions)) :=
  ⟨rfl, C7_daily_bucketing reqC7 planC7 rfl⟩

/-- Claim C8: for every request that yields a plan, the order clause is
exactly `projeto asc`, then (iff `resultado_diario`) `dia asc`, then the
output column descending — the same shape for single- and two-stage plans
and for all other flags. -/
theorem C8_order_spec (r : QueryRequest) (p : QueryPlan)
    (h : get_stats r = Except.ok p) :
    p.orderByClause =
      "projeto asc, " ++ (if r.resultado_diario then "dia asc, " else "")
        ++ p.outputColumnName ++ " desc" := by
  obtain ⟨d, ca, op, m, j, dl⟩ := r
  rw [get_stats_dias_irrel] at h
  cases ca <;> cases op <;> cases m <;> cases j <;> cases dl <;>
    first
      | exact Except.noConfusion h
      | (injection h with h; subst h; rfl)

/-- Witness for C8 at `reqC8` (daily two-stage plan) and its plan `planC8`. -/
theorem C8_order_spec_witness :
    get_stats reqC8 = Except.ok planC8 ∧
    planC8.orderByClause =
      "projeto asc, " ++ (if reqC8.resultado_diario then "dia asc, " else "")
        ++ planC8.outputColumnName ++ " desc" :=
  ⟨rfl, C8_order_spec reqC8 planC8 rfl⟩

/-- Claim C9: building and rendering are deterministic — the embedded
builder and renderer are pure functions of the request (and of the plan)
alone, so running the pipeline twice on the same request, or rendering the
same plan twice, yields byte-identical query text; no state outside the
request enters the construction (`get_stats_dias_irrel` further shows the
text ignores even the request's `dias` field). -/
theorem C9_deterministic (r : QueryRequest) (p : QueryPlan) :
    buildAndRender r = buildAndRender r ∧ renderPlan p = renderPlan p :=
  ⟨rfl, rfl⟩

/-- Claim C10: in every plan the builder produces, the output (final) stage
groups exactly by the base group keys and `job_id` is not among them; the
`job_id` derivation and its non-null filter occur at most once each; and a
two-stage plan adds `job_id` precisely to stage 1's group keys. -/
theorem C10_jobid_stage_keys (r : QueryRequest) (p : QueryPlan)
    (h : get_stats r = Except.ok p) :
    (p.stages.map AggStage.groupBy).getLast? = some p.groupByColumns ∧
    "job_id" ∉ p.groupByColumns ∧
    p.extendExpressions.count "job_id = tostring(msg_data.job_id)" ≤ 1 ∧
    p.whereConditions.count "isnotnull(msg_data.job_id)" ≤ 1 ∧
    (p.stages.length = 2 →
      (p.stages.map AggStage.groupBy).head? = some (p.groupByColumns ++ ["job_id"])) := by
  obtain ⟨d, ca, op, m, j, dl⟩ := r
  rw [get_stats_dias_irrel] at h
  cases ca <;> cases op <;> cases m <;> cases j <;> cases dl <;>
    first
      | exact Except.noConfusion h
      | (injection h with h; subst h; decide)

/-- Witness for C10 at `reqC10` (two-stage plan) and its plan `planC10`. -/
theorem C10_jobid_stage_keys_witness :
    get_stats reqC10 = Except.ok planC10 ∧
    ((planC10.stages.map AggStage.groupBy).getLast? = some planC10.groupByColumns ∧
    "job_id" ∉ planC10.groupByColumns ∧
    planC10.extendExpressions.count "job_id = tostring(msg_data.job_id)" ≤ 1 ∧
    planC10.whereConditions.count "isnotnull(msg_data.job_id)" ≤ 1 ∧
    (planC10.stages.length = 2 →
      (planC10.stages.map AggStage.groupBy).head? = some (planC10.groupByColumns ++ ["job_id"]))) :=
  ⟨rfl, C10_jobid_stage_keys reqC10 planC10 rfl⟩

end Monitoramento
